import Mathlib

/-!
Shallow embedding of the IBC event-to-message translator of misko9/centauri
(hyperspace relayer): `hyperspace/core/src/events.rs` (the translator,
`parse_events`) and `hyperspace/cosmos/src/events.rs` (the ABCI-event
decoder).  Rust `Result` becomes `Except`, `Option` stays `Option`, machine
integers become `Nat` (all uses here are bounded reads, no overflowing
arithmetic), byte strings become `List Nat`, and Rust panics (`expect`,
`unwrap`) become a dedicated error constructor so that typed errors and
crashes stay distinguishable.  The test-only process-global
`packet_relay_status()` flag is passed in as an explicit boolean parameter.
-/

namespace Centauri

/-- Height of a chain: revision number and revision height, as in the ibc
crate used by the repository. -/
structure Height where
  revision_number : Nat
  revision_height : Nat
deriving DecidableEq, Repr

/-- Modelled from the spec: the ibc crate (in the repository but outside the
given source files) treats the height pair (0,0) as absent/zero. -/
def Height.isZero (h : Height) : Bool :=
  h.revision_number == 0 && h.revision_height == 0

/-- Decimal u64 parse of a character list: digits only, non-empty, below
2^64.  Used by the ABCI attribute decoders for sequences, timestamps and
height parts. -/
def parseU64List (l : List Char) : Option Nat :=
  if l ≠ [] ∧ l.all Char.isDigit then
    let n := l.foldl (fun acc c => 10 * acc + (c.toNat - 48)) 0
    if n < 2 ^ 64 then some n else none
  else none

/-- Decimal u64 parse of a string. -/
def parseU64 (s : String) : Option Nat :=
  parseU64List s.data

/-- Error raised by parsing a string as a `Height`; carries the offending
string so callers can pattern-match on it (the decoder matches on the case
where the carried string is the literal zero). -/
inductive HeightError where
  | heightConversion (height : String)
deriving DecidableEq, Repr

/-- Split a character list at dash characters, the separator of height
strings. -/
def splitDash : List Char → List (List Char)
  | [] => [[]]
  | c :: cs =>
    if c = '-' then [] :: splitDash cs
    else
      match splitDash cs with
      | [] => [[c]]
      | h :: t => (c :: h) :: t

/-- Modelled from the spec: the ibc crate parses a height from the
`revision_number-revision_height` decimal string form; anything else fails
with a conversion error carrying the original string.  The crate is in the
repository but outside the given source files. -/
def heightFromStr (s : String) : Except HeightError Height :=
  match splitDash s.data with
  | [a, b] =>
    match parseU64List a, parseU64List b with
    | some rn, some rh => .ok ⟨rn, rh⟩
    | _, _ => .error (.heightConversion s)
  | _ => .error (.heightConversion s)

/-- Bytes of a string, as the Rust decoders take them with `as_bytes`.  We
use the code points, which agree with UTF-8 on the ASCII inputs used here. -/
def strBytes (s : String) : List Nat :=
  s.data.map Char.toNat

/-- Value of a single hex digit, or `none`. -/
def hexDigit (c : Char) : Option Nat :=
  if '0' ≤ c ∧ c ≤ '9' then some (c.toNat - 48)
  else if 'a' ≤ c ∧ c ≤ 'f' then some (c.toNat - 87)
  else if 'A' ≤ c ∧ c ≤ 'F' then some (c.toNat - 55)
  else none

/-- Hex decoding of a character list: pairs of hex digits. -/
def hexDecodeList : List Char → Option (List Nat)
  | [] => some []
  | [_] => none
  | a :: b :: rest =>
    match hexDigit a, hexDigit b, hexDecodeList rest with
    | some x, some y, some r => some ((16 * x + y) :: r)
    | _, _, _ => none

/-- Hex decoding of a string, as Rust `hex::decode`. -/
def hexDecode (s : String) : Option (List Nat) :=
  hexDecodeList s.data

/-- Whether `pat` is a prefix of `l`, on character lists. -/
def isPrefixList : List Char → List Char → Bool
  | [], _ => true
  | _ :: _, [] => false
  | a :: as, b :: bs => a == b && isPrefixList as bs

/-- Whether `pat` occurs as a contiguous substring of `l`. -/
def containsSubstrList (pat : List Char) : List Char → Bool
  | [] => isPrefixList pat []
  | c :: cs => isPrefixList pat (c :: cs) || containsSubstrList pat cs

/-- Rust `s.contains(pat)` on strings: substring containment. -/
def containsSubstr (s pat : String) : Bool :=
  containsSubstrList pat.data s.data

/-! ## Core IBC data model (as consumed by `hyperspace/core/src/events.rs`) -/

/-- Counterparty of a connection end.  The commitment prefix is a byte
string; the field is called `prefix` in the source. -/
structure ConnCounterparty where
  client_id : String
  connection_id : Option String
  prefixBytes : List Nat
deriving DecidableEq, Repr

/-- A decoded connection end, with the fields the translator reads:
counterparty, versions, and the delay period (in nanoseconds; only
zero-or-not is observed). -/
structure ConnectionEnd where
  client_id : String
  counterparty : ConnCounterparty
  versions : List String
  delay_period : Nat
deriving DecidableEq, Repr

/-- Channel state, as in ics04. -/
inductive ChanState where
  | uninitialized | init | tryOpen | open | closed
deriving DecidableEq, Repr

/-- Channel ordering discipline. -/
inductive ChanOrder where
  | unordered | ordered
deriving DecidableEq, Repr

/-- Counterparty of a channel end: port and optional channel id. -/
structure ChanCounterparty where
  port_id : String
  channel_id : Option String
deriving DecidableEq, Repr

/-- A decoded channel end with the fields the translator reads. -/
structure ChannelEnd where
  state : ChanState
  ordering : ChanOrder
  counterparty : ChanCounterparty
  connection_hops : List String
  version : String
deriving DecidableEq, Repr

/-- An IBC packet.  In this repository `timeout_height` is a plain `Height`
with (0,0) meaning no height timeout, and `timeout_timestamp` is a
nanosecond count with 0 meaning no timestamp timeout. -/
structure Packet where
  sequence : Nat
  source_port : String
  source_channel : String
  destination_port : String
  destination_channel : String
  data : List Nat
  timeout_height : Height
  timeout_timestamp : Nat
deriving DecidableEq, Repr

/-- The client state as the translator consumes it: only `latest_height` is
read (`AnyClientState` in the source carries more, none of it used here). -/
structure ClientState where
  latest_height : Height
deriving DecidableEq, Repr

/-- Outcome classification for the translator: typed errors returned as
values versus Rust panics (`expect`/`unwrap`), kept distinct so that
crash-vs-error claims are statable. -/
inductive Err where
  | custom (msg : String)
  | query (msg : String)
  | panicked (msg : String)
deriving DecidableEq, Repr

/-- Log lines emitted by the translator; only the level and the static text
of the message are modelled (the interpolated values are dropped). -/
inductive LogEntry where
  | debug (msg : String)
  | warn (msg : String)
deriving DecidableEq, Repr

/-- Number of warning lines in a log. -/
def warnCount (logs : List LogEntry) : Nat :=
  (logs.filter fun l => match l with | .warn _ => true | .debug _ => false).length

/-- Relay mode, from `hyperspace/core`: light mode suppresses optional
sink-side channel queries. -/
inductive Mode where
  | full | light
deriving DecidableEq, Repr

/-- Modelled from the spec: `CommitmentProofBytes::try_from(Vec<u8>)` of the
ibc crate (in the repository, outside the given source files) rejects empty
proof byte strings and otherwise wraps the bytes. -/
def commitmentProofBytes (bs : List Nat) : Except Err (List Nat) :=
  if bs.isEmpty then .error (.query "empty commitment proof bytes") else .ok bs

/-- A consensus proof: proof bytes plus the consensus height they attest. -/
structure ConsensusProof where
  proof : List Nat
  height : Height
deriving DecidableEq, Repr

/-- Modelled from the spec: `ConsensusProof::new` of the ibc crate rejects a
zero consensus height. -/
def consensusProofNew (proof : List Nat) (h : Height) : Except Err ConsensusProof :=
  if h.isZero then .error (.query "zero height in consensus proof") else .ok ⟨proof, h⟩

/-- The proof bundle carried by every outbound message. -/
structure Proofs where
  object_proof : List Nat
  client_proof : Option (List Nat)
  consensus_proof : Option ConsensusProof
  other_proof : Option (List Nat)
  height : Height
deriving DecidableEq, Repr

/-- Modelled from the spec: `Proofs::new` of the ibc crate rejects a zero
proof height (spec section 3: the ProofSet invariant `proof_height` is
non-zero). -/
def proofsNew (obj : List Nat) (client : Option (List Nat))
    (cons : Option ConsensusProof) (other : Option (List Nat)) (h : Height) :
    Except Err Proofs :=
  if h.isZero then .error (.query "zero proof height") else .ok ⟨obj, client, cons, other, h⟩

/-! ## Outbound messages.  The source serializes each message to a protobuf
`Any`; we keep the structured message, which is what the claims are about. -/

/-- `MsgConnectionOpenTry`, the fields the translator fills. -/
structure MsgConnectionOpenTry where
  client_id : String
  client_state : Option ClientState
  counterparty : ConnCounterparty
  counterparty_versions : List String
  proofs : Proofs
  delay_period : Nat
  signer : String
  host_consensus_state_proof : List Nat
deriving DecidableEq, Repr

/-- `MsgConnectionOpenAck`. -/
structure MsgConnectionOpenAck where
  connection_id : String
  counterparty_connection_id : String
  client_state : Option ClientState
  proofs : Proofs
  host_consensus_state_proof : List Nat
  version : String
  signer : String
deriving DecidableEq, Repr

/-- `MsgConnectionOpenConfirm`. -/
structure MsgConnectionOpenConfirm where
  connection_id : String
  proofs : Proofs
  signer : String
deriving DecidableEq, Repr

/-- `MsgChannelOpenTry`. -/
structure MsgChannelOpenTry where
  port_id : String
  channel : ChannelEnd
  counterparty_version : String
  proofs : Proofs
  signer : String
deriving DecidableEq, Repr

/-- `MsgChannelOpenAck`. -/
structure MsgChannelOpenAck where
  port_id : String
  counterparty_version : String
  proofs : Proofs
  channel_id : String
  counterparty_channel_id : String
  signer : String
deriving DecidableEq, Repr

/-- `MsgChannelOpenConfirm`. -/
structure MsgChannelOpenConfirm where
  port_id : String
  proofs : Proofs
  channel_id : String
  signer : String
deriving DecidableEq, Repr

/-- `MsgChannelCloseConfirm`. -/
structure MsgChannelCloseConfirm where
  port_id : String
  proofs : Proofs
  channel_id : String
  signer : String
deriving DecidableEq, Repr

/-- `MsgRecvPacket`. -/
structure MsgRecvPacket where
  packet : Packet
  proofs : Proofs
  signer : String
deriving DecidableEq, Repr

/-- `MsgAcknowledgement`. -/
structure MsgAcknowledgement where
  packet : Packet
  acknowledgement : List Nat
  proofs : Proofs
  signer : String
deriving DecidableEq, Repr

/-- The outbound message union pushed onto the translator result list. -/
inductive OutMsg where
  | connOpenTry (m : MsgConnectionOpenTry)
  | connOpenAck (m : MsgConnectionOpenAck)
  | connOpenConfirm (m : MsgConnectionOpenConfirm)
  | chanOpenTry (m : MsgChannelOpenTry)
  | chanOpenAck (m : MsgChannelOpenAck)
  | chanOpenConfirm (m : MsgChannelOpenConfirm)
  | chanCloseConfirm (m : MsgChannelCloseConfirm)
  | recvPacket (m : MsgRecvPacket)
  | acknowledgement (m : MsgAcknowledgement)
deriving DecidableEq, Repr

/-! ## Events consumed by the translator -/

/-- Attributes of a connection handshake event (`ics03` events): the event
carries its height, an optional connection id, the client id, and the
counterparty pair. -/
structure ConnEventAttrs where
  height : Height
  connection_id : Option String
  client_id : String
  counterparty_connection_id : Option String
  counterparty_client_id : String
deriving DecidableEq, Repr

/-- Attributes of a channel handshake event (`ics04` events).  For
`CloseInitChannel` the source stores the channel id as non-optional; the
other handshake events carry an optional one. -/
structure ChanEventAttrs where
  height : Height
  port_id : String
  channel_id : Option String
  connection_id : String
  counterparty_port_id : String
  counterparty_channel_id : Option String
deriving DecidableEq, Repr

/-- `CloseInitChannel` attributes: the channel id is mandatory here. -/
structure CloseInitAttrs where
  height : Height
  port_id : String
  channel_id : String
deriving DecidableEq, Repr

/-- A `SendPacket` event. -/
structure SendPacketEv where
  height : Height
  packet : Packet
deriving DecidableEq, Repr

/-- A `WriteAcknowledgement` event. -/
structure WriteAckEv where
  height : Height
  packet : Packet
  ack : List Nat
deriving DecidableEq, Repr

/-- The event variants `parse_events` matches on; every variant it does not
handle is collapsed into `other` (the `_ => continue` arm). -/
inductive IbcEvent where
  | openInitConnection (a : ConnEventAttrs)
  | openTryConnection (a : ConnEventAttrs)
  | openAckConnection (a : ConnEventAttrs)
  | openInitChannel (a : ChanEventAttrs)
  | openTryChannel (a : ChanEventAttrs)
  | openAckChannel (a : ChanEventAttrs)
  | closeInitChannel (a : CloseInitAttrs)
  | sendPacket (e : SendPacketEv)
  | writeAcknowledgement (e : WriteAckEv)
  | other
deriving DecidableEq, Repr

/-! ## The chain port consumed by the translator -/

/-- Response of `query_connection_end`: optional connection end, proof
bytes, optional proof height.  The source decodes the raw protobuf end with
`ConnectionEnd::try_from`; we model responses as already carrying the
decoded value (decode failures are outside every claim under study). -/
structure QueryConnResponse where
  connection : Option ConnectionEnd
  proof : List Nat
  proof_height : Option Height
deriving DecidableEq, Repr

/-- Response of `query_channel_end`. -/
structure QueryChanResponse where
  channel : Option ChannelEnd
  proof : List Nat
  proof_height : Option Height
deriving DecidableEq, Repr

/-- Response of `query_client_state`. -/
structure QueryClientStateResponse where
  client_state : Option ClientState
  proof : List Nat
  proof_height : Option Height
deriving DecidableEq, Repr

/-- Response of a proof-only query (`query_client_consensus`,
`query_packet_commitment`, `query_packet_acknowledgement`). -/
structure QueryProofResponse where
  proof : List Nat
  proof_height : Option Height
deriving DecidableEq, Repr

/-- The `Chain` interface of `primitives::Chain` restricted to what
`parse_events` calls.  Queries are total functions returning `Except` so a
backend can fail; field order of the argument lists follows the source. -/
structure Chain where
  query_connection_end : Height → String → Except Err QueryConnResponse
  query_channel_end : Height → String → String → Except Err QueryChanResponse
  query_client_state : Height → String → Except Err QueryClientStateResponse
  query_client_consensus : Height → String → Height → Except Err QueryProofResponse
  query_packet_commitment : Height → String → String → Nat → Except Err QueryProofResponse
  query_packet_acknowledgement : Height → String → String → Nat → Except Err QueryProofResponse
  query_host_consensus_state_proof : ClientState → Except Err (Option (List Nat))
  account_id : String
  client_type : String
  prefixBytes : List Nat

/-! ## The translator (`parse_events` of `hyperspace/core/src/events.rs`) -/

/-- Helper of `parse_events`: fetch the host consensus state proof from the
sink.  When the sink client type contains `tendermint` the sink query is not
made and the proof is the empty byte string; otherwise the query result is
unwrapped with `expect` (a panic when the port returns `None`). -/
def query_host_consensus_state_proof (sink : Chain) (client_state : ClientState) :
    Except Err (List Nat) :=
  if !(containsSubstr sink.client_type "tendermint") then
    match sink.query_host_consensus_state_proof client_state with
    | .error e => .error e
    | .ok none => .error (.panicked "Host chain requires consensus state proof; qed")
    | .ok (some p) => .ok p
  else
    .ok []

/-- Modelled from the spec: `ConnectionId::from_str` of the ibc crate (in
the repository, outside the given source files) validates an ics24
identifier; the only property the translator relies on is that the empty
string is rejected. -/
def connIdFromStr (s : String) : Except Err String :=
  if s = "" then .error (.custom "invalid connection identifier") else .ok s

/-- The `OpenInitConnection` arm: build `MsgConnectionOpenTry`. -/
def handleOpenInitConnection (source sink : Chain) (a : ConnEventAttrs) :
    Except Err (List OutMsg × List LogEntry) :=
  match a.connection_id with
  | none => .ok ([], [])
  | some connection_id =>
    match source.query_connection_end a.height connection_id with
    | .error e => .error e
    | .ok connection_response =>
      match connection_response.connection with
      | none => .error (.custom "open_conn_init Connection end not found")
      | some connection_end =>
        match commitmentProofBytes connection_response.proof with
        | .error e => .error e
        | .ok connection_proof =>
          match source.query_client_state a.height a.client_id with
          | .error e => .error e
          | .ok client_state_response =>
            match connection_response.proof_height with
            | none => .error (.custom "open_conn_init Proof height not found in response")
            | some proof_height =>
              match client_state_response.client_state with
              | none => .error (.custom "Client state is empty")
              | some client_state =>
                match source.query_client_consensus a.height a.client_id
                    client_state.latest_height with
                | .error e => .error e
                | .ok consensus_response =>
                  match query_host_consensus_state_proof sink client_state with
                  | .error e => .error e
                  | .ok host_consensus_state_proof =>
                    match commitmentProofBytes consensus_response.proof with
                    | .error e => .error e
                    | .ok consensus_bytes =>
                      match consensusProofNew consensus_bytes client_state.latest_height with
                      | .error e => .error e
                      | .ok consensus_proof =>
                        match proofsNew connection_proof
                            (commitmentProofBytes client_state_response.proof).toOption
                            (some consensus_proof) none proof_height with
                        | .error e => .error e
                        | .ok proofs =>
                          .ok ([OutMsg.connOpenTry {
                            client_id := connection_end.counterparty.client_id,
                            client_state := some client_state,
                            counterparty :=
                              ⟨a.client_id, some connection_id, source.prefixBytes⟩,
                            counterparty_versions := connection_end.versions,
                            proofs := proofs,
                            delay_period := connection_end.delay_period,
                            signer := sink.account_id,
                            host_consensus_state_proof := host_consensus_state_proof }], [])

/-- The `OpenTryConnection` arm: build `MsgConnectionOpenAck`.  The
counterparty connection id and the first connection version are required,
with typed errors when absent. -/
def handleOpenTryConnection (source sink : Chain) (a : ConnEventAttrs) :
    Except Err (List OutMsg × List LogEntry) :=
  match a.connection_id with
  | none => .ok ([], [])
  | some connection_id =>
    match source.query_connection_end a.height connection_id with
    | .error e => .error e
    | .ok connection_response =>
      match connection_response.connection with
      | none => .error (.custom "open_conn_try Connection end not found")
      | some connection_end =>
        match commitmentProofBytes connection_response.proof with
        | .error e => .error e
        | .ok connection_proof =>
          match source.query_client_state a.height a.client_id with
          | .error e => .error e
          | .ok client_state_response =>
            match connection_response.proof_height with
            | none => .error (.custom "open_conn_try Proof height not found in response")
            | some proof_height =>
              match client_state_response.client_state with
              | none => .error (.custom "Client state is empty")
              | some client_state =>
                match source.query_client_consensus a.height a.client_id
                    client_state.latest_height with
                | .error e => .error e
                | .ok consensus_response =>
                  match query_host_consensus_state_proof sink client_state with
                  | .error e => .error e
                  | .ok host_consensus_state_proof =>
                    match connection_end.counterparty.connection_id with
                    | none => .error (.custom "open_conn_try Connection Id not found")
                    | some counterparty_connection_id =>
                      match commitmentProofBytes consensus_response.proof with
                      | .error e => .error e
                      | .ok consensus_bytes =>
                        match consensusProofNew consensus_bytes client_state.latest_height with
                        | .error e => .error e
                        | .ok consensus_proof =>
                          match proofsNew connection_proof
                              (commitmentProofBytes client_state_response.proof).toOption
                              (some consensus_proof) none proof_height with
                          | .error e => .error e
                          | .ok proofs =>
                            match connection_end.versions.head? with
                            | none => .error (.custom "open_conn_try Connection version is missing")
                            | some version =>
                              .ok ([OutMsg.connOpenAck {
                                connection_id := counterparty_connection_id,
                                counterparty_connection_id := connection_id,
                                client_state := some client_state,
                                proofs := proofs,
                                host_consensus_state_proof := host_consensus_state_proof,
                                version := version,
                                signer := sink.account_id }], [])

/-- The `OpenAckConnection` arm: build `MsgConnectionOpenConfirm`. -/
def handleOpenAckConnection (source sink : Chain) (a : ConnEventAttrs) :
    Except Err (List OutMsg × List LogEntry) :=
  match a.connection_id with
  | none => .ok ([], [])
  | some connection_id =>
    match source.query_connection_end a.height connection_id with
    | .error e => .error e
    | .ok connection_response =>
      match connection_response.connection with
      | none => .error (.custom "open_conn_ack Connection end not found")
      | some connection_end =>
        match commitmentProofBytes connection_response.proof with
        | .error e => .error e
        | .ok connection_proof =>
          match connection_response.proof_height with
          | none => .error (.custom "open_conn_ack Proof height not found in response")
          | some proof_height =>
            match connection_end.counterparty.connection_id with
            | none => .error (.custom "open_conn_ack Connection Id not found")
            | some counterparty_connection_id =>
              match proofsNew connection_proof none none none proof_height with
              | .error e => .error e
              | .ok proofs =>
                .ok ([OutMsg.connOpenConfirm {
                  connection_id := counterparty_connection_id,
                  proofs := proofs,
                  signer := sink.account_id }], [])

/-- The `OpenInitChannel` arm: build `MsgChannelOpenTry`, synthesizing the
channel end expected on the receiving chain in state `TryOpen`. -/
def handleOpenInitChannel (source sink : Chain) (a : ChanEventAttrs) :
    Except Err (List OutMsg × List LogEntry) :=
  match a.channel_id with
  | none => .ok ([], [])
  | some channel_id =>
    match source.query_channel_end a.height channel_id a.port_id with
    | .error e => .error e
    | .ok channel_response =>
      match channel_response.channel with
      | none => .error (.custom "open_chan_init ChannelEnd not found")
      | some channel_end =>
        match source.query_connection_end a.height a.connection_id with
        | .error e => .error e
        | .ok connection_response =>
          match connection_response.connection with
          | none => .error (.custom "open_chan_init Connection end not found")
          | some connection_end =>
            match connIdFromStr
                (connection_end.counterparty.connection_id.getD "") with
            | .error e => .error e
            | .ok hop =>
              let channel : ChannelEnd :=
                ⟨.tryOpen, channel_end.ordering, ⟨a.port_id, some channel_id⟩,
                 [hop], channel_end.version⟩
              match commitmentProofBytes channel_response.proof with
              | .error e => .error e
              | .ok channel_proof =>
                match channel_response.proof_height with
                | none => .error (.panicked "open_chan_init Proof height should be present")
                | some proof_height =>
                  match proofsNew channel_proof none none none proof_height with
                  | .error e => .error e
                  | .ok proofs =>
                    .ok ([OutMsg.chanOpenTry {
                      port_id := channel_end.counterparty.port_id,
                      channel := channel,
                      counterparty_version := channel_end.version,
                      proofs := proofs,
                      signer := sink.account_id }], [])

/-- The `OpenTryChannel` arm: build `MsgChannelOpenAck`.  The counterparty
channel id is unwrapped with `expect` in the source, a panic when absent. -/
def handleOpenTryChannel (source sink : Chain) (a : ChanEventAttrs) :
    Except Err (List OutMsg × List LogEntry) :=
  match a.channel_id with
  | none => .ok ([], [])
  | some channel_id =>
    match source.query_channel_end a.height channel_id a.port_id with
    | .error e => .error e
    | .ok channel_response =>
      match channel_response.channel with
      | none => .error (.custom "open_chan_try ChannelEnd not found")
      | some channel_end =>
        match commitmentProofBytes channel_response.proof with
        | .error e => .error e
        | .ok channel_proof =>
          match channel_response.proof_height with
          | none => .error (.panicked "open_chan_try Proof height should be present")
          | some proof_height =>
            match proofsNew channel_proof none none none proof_height with
            | .error e => .error e
            | .ok proofs =>
              match channel_end.counterparty.channel_id with
              | none => .error (.panicked "Expect channel id to be set")
              | some counterparty_channel_id =>
                .ok ([OutMsg.chanOpenAck {
                  port_id := channel_end.counterparty.port_id,
                  counterparty_version := channel_end.version,
                  proofs := proofs,
                  channel_id := counterparty_channel_id,
                  counterparty_channel_id := channel_id,
                  signer := sink.account_id }], [])

/-- The `OpenAckChannel` arm: build `MsgChannelOpenConfirm`; the
counterparty channel id is again unwrapped with `expect`. -/
def handleOpenAckChannel (source sink : Chain) (a : ChanEventAttrs) :
    Except Err (List OutMsg × List LogEntry) :=
  match a.channel_id with
  | none => .ok ([], [])
  | some channel_id =>
    match source.query_channel_end a.height channel_id a.port_id with
    | .error e => .error e
    | .ok channel_response =>
      match channel_response.channel with
      | none => .error (.custom "open_chan_ack ChannelEnd not found")
      | some channel_end =>
        match commitmentProofBytes channel_response.proof with
        | .error e => .error e
        | .ok channel_proof =>
          match channel_response.proof_height with
          | none => .error (.panicked "Proof height should be present")
          | some proof_height =>
            match proofsNew channel_proof none none none proof_height with
            | .error e => .error e
            | .ok proofs =>
              match channel_end.counterparty.channel_id with
              | none => .error (.panicked "Expect channel id to be set")
              | some counterparty_channel_id =>
                .ok ([OutMsg.chanOpenConfirm {
                  port_id := channel_end.counterparty.port_id,
                  proofs := proofs,
                  channel_id := counterparty_channel_id,
                  signer := sink.account_id }], [])

/-- The `CloseInitChannel` arm: build `MsgChannelCloseConfirm`; the channel
id is mandatory on this event, the counterparty one unwrapped with
`expect`. -/
def handleCloseInitChannel (source sink : Chain) (a : CloseInitAttrs) :
    Except Err (List OutMsg × List LogEntry) :=
  match source.query_channel_end a.height a.channel_id a.port_id with
  | .error e => .error e
  | .ok channel_response =>
    match channel_response.channel with
    | none => .error (.custom "close_chan_init ChannelEnd not found")
    | some channel_end =>
      match commitmentProofBytes channel_response.proof with
      | .error e => .error e
      | .ok channel_proof =>
        match channel_response.proof_height with
        | none => .error (.panicked "Proof height should be present")
        | some proof_height =>
          match proofsNew channel_proof none none none proof_height with
          | .error e => .error e
          | .ok proofs =>
            match channel_end.counterparty.channel_id with
            | none => .error (.panicked "Expect channel id to be set")
            | some counterparty_channel_id =>
              .ok ([OutMsg.chanCloseConfirm {
                port_id := channel_end.counterparty.port_id,
                proofs := proofs,
                channel_id := counterparty_channel_id,
                signer := sink.account_id }], [])

/-- The `SendPacket` arm: the admission gates (test-only relay flag,
connection delay, zero timeout) and then `MsgRecvPacket`.  `relayEnabled`
models the test-only process-global `packet_relay_status()`; production
builds compile the check away, which coincides with `relayEnabled = true`. -/
def handleSendPacket (relayEnabled : Bool) (source sink : Chain) (e : SendPacketEv) :
    Except Err (List OutMsg × List LogEntry) :=
  if relayEnabled = false then .ok ([], [])
  else
    match source.query_channel_end e.height e.packet.source_channel e.packet.source_port with
    | .error er => .error er
    | .ok channel_response =>
      match channel_response.channel with
      | none => .error (.custom "Failed to convert to concrete channel end from raw channel end")
      | some channel_end =>
        match channel_end.connection_hops.head? with
        | none => .error (.custom "Channel end missing connection id")
        | some connection_id =>
          match source.query_connection_end e.height connection_id with
          | .error er => .error er
          | .ok connection_response =>
            match connection_response.connection with
            | none => .error (.custom "ConnectionEnd not found")
            | some connection_end =>
              if connection_end.delay_period ≠ 0 then
                .ok ([], [.debug "Skipping packet relay because of connection delays"])
              else if e.packet.timeout_height.isZero ∧ e.packet.timeout_timestamp = 0 then
                .ok ([], [.warn "Skipping packet relay because packet timeout is zero"])
              else
                match source.query_packet_commitment e.height e.packet.source_port
                    e.packet.source_channel e.packet.sequence with
                | .error er => .error er
                | .ok commitment_response =>
                  match commitmentProofBytes commitment_response.proof with
                  | .error er => .error er
                  | .ok commitment_proof =>
                    match commitment_response.proof_height with
                    | none => .error (.panicked "Proof height should be present")
                    | some proof_height =>
                      match proofsNew commitment_proof none none none proof_height with
                      | .error er => .error er
                      | .ok proofs =>
                        .ok ([OutMsg.recvPacket {
                          packet := e.packet,
                          proofs := proofs,
                          signer := sink.account_id }],
                          [.debug "Sending packet"])

/-- The `WriteAcknowledgement` arm: the connection-delay gate (note: no
relay-flag gate here in the source) and then `MsgAcknowledgement`. -/
def handleWriteAck (source sink : Chain) (e : WriteAckEv) :
    Except Err (List OutMsg × List LogEntry) :=
  match source.query_channel_end e.height e.packet.destination_channel
      e.packet.destination_port with
  | .error er => .error er
  | .ok channel_response =>
    match channel_response.channel with
    | none => .error (.custom "Failed to convert to concrete channel end from raw channel end")
    | some channel_end =>
      match channel_end.connection_hops.head? with
      | none => .error (.custom "Channel end missing connection id")
      | some connection_id =>
        match source.query_connection_end e.height connection_id with
        | .error er => .error er
        | .ok connection_response =>
          match connection_response.connection with
          | none => .error (.custom "ConnectionEnd not found")
          | some connection_end =>
            if connection_end.delay_period ≠ 0 then
              .ok ([], [.debug "Skipping write acknowledgement because of connection delay"])
            else
              match source.query_packet_acknowledgement e.height e.packet.destination_port
                  e.packet.destination_channel e.packet.sequence with
              | .error er => .error er
              | .ok ack_response =>
                match commitmentProofBytes ack_response.proof with
                | .error er => .error er
                | .ok commitment_proof =>
                  match ack_response.proof_height with
                  | none => .error (.panicked "Proof height should be present")
                  | some proof_height =>
                    match proofsNew commitment_proof none none none proof_height with
                    | .error er => .error er
                    | .ok proofs =>
                      .ok ([OutMsg.acknowledgement {
                        packet := e.packet,
                        acknowledgement := e.ack,
                        proofs := proofs,
                        signer := sink.account_id }], [])

/-- Dispatch of one event to its arm; the unhandled variants fall through to
the `_ => continue` arm producing nothing. -/
def handleEvent (relayEnabled : Bool) (source sink : Chain) :
    IbcEvent → Except Err (List OutMsg × List LogEntry)
  | .openInitConnection a => handleOpenInitConnection source sink a
  | .openTryConnection a => handleOpenTryConnection source sink a
  | .openAckConnection a => handleOpenAckConnection source sink a
  | .openInitChannel a => handleOpenInitChannel source sink a
  | .openTryChannel a => handleOpenTryChannel source sink a
  | .openAckChannel a => handleOpenAckChannel source sink a
  | .closeInitChannel a => handleCloseInitChannel source sink a
  | .sendPacket e => handleSendPacket relayEnabled source sink e
  | .writeAcknowledgement e => handleWriteAck source sink e
  | .other => .ok ([], [])

/-- The event loop of `parse_events`: messages and log lines accumulate in
order; the first error aborts the batch. -/
def runEvents (relayEnabled : Bool) (source sink : Chain) :
    List IbcEvent → Except Err (List OutMsg × List LogEntry)
  | [] => .ok ([], [])
  | ev :: rest =>
    match handleEvent relayEnabled source sink ev with
    | .error e => .error e
    | .ok (ms, ls) =>
      match runEvents relayEnabled source sink rest with
      | .error e => .error e
      | .ok (ms2, ls2) => .ok (ms ++ ms2, ls ++ ls2)

/-- `parse_events`: run the loop, then the mode branch of the source (an
early `return Ok(messages)` in light mode, the same `Ok(messages)`
otherwise). -/
def parse_events (relayEnabled : Bool) (source sink : Chain)
    (events : List IbcEvent) (mode : Option Mode) :
    Except Err (List OutMsg × List LogEntry) :=
  match runEvents relayEnabled source sink events with
  | .error e => .error e
  | .ok r =>
    match mode with
    | some .light => .ok r
    | _ => .ok r

/-! ## The ABCI event decoder (`hyperspace/cosmos/src/events.rs`) -/

/-- One key/value attribute of a Tendermint ABCI event. -/
structure AbciAttribute where
  key : String
  value : String
deriving DecidableEq, Repr

/-- A Tendermint ABCI event: a kind tag and a list of attributes. -/
structure AbciEvent where
  kind : String
  attributes : List AbciAttribute
deriving DecidableEq, Repr

/-- The ics02 client errors the decoder can produce. -/
inductive ClientError where
  | invalidClientIdentifier
  | unknownClientType (raw : String)
  | invalidStringAsHeight (raw : String)
  | malformedHeader
  | missingRawHeader
  | headerDecodeError
deriving DecidableEq, Repr

/-- The ics04 channel errors the decoder can produce. -/
inductive ChannelError where
  | identifier
  | invalidStringAsSequence (raw : String)
  | invalidPacketTimestamp
  | invalidPacketHeight
  | missingHeight
  | invalidTimeoutHeight
  | abciConversionFailed (kind : String)
  | implementationSpecific (msg : String)
deriving DecidableEq, Repr

/-- Modelled from the spec: identifier parsing (`PortId`, `ChannelId`,
`ClientId` `FromStr`) lives in the ibc crate, in the repository but outside
the given source files; ics24 validation accepts non-empty strings of
alphanumerics and the separator characters. -/
def validIdent (s : String) : Bool :=
  s.data ≠ [] && s.data.all fun c =>
    c.isAlphanum || c ∈ ['.', '_', '+', '-', '#', '[', ']', '<', '>']

/-- Parse timeout height: the ibc-go quirk.  The literal string of the error
raised by height conversion is matched against `"0"`: that exact failing
input means no height timeout, every other failure is
`InvalidTimeoutHeight`. -/
def parse_timeout_height (s : String) : Except ChannelError (Option Height) :=
  match heightFromStr s with
  | .ok height => .ok (some height)
  | .error e =>
    match e with
    | .heightConversion x => if x = "0" then .ok none else .error .invalidTimeoutHeight

/-- The packet default the extractor starts from.  The concrete default
identifiers come from the ibc crate and are only observable when an
attribute is missing, which no claim exercises. -/
def defaultPacket : Packet :=
  { sequence := 0
    source_port := "defaultPort"
    source_channel := "channel-0"
    destination_port := "defaultPort"
    destination_channel := "channel-0"
    data := []
    timeout_height := ⟨0, 0⟩
    timeout_timestamp := 0 }

/-- One step of the attribute scan of
`extract_packet_and_write_ack_from_tx`: update the packet or the write-ack
accumulator according to the key, ignoring unknown keys.  On
`packet_timeout_height`, a `None` result of `parse_timeout_height` is
turned into the `MissingHeight` error by `ok_or_else` in the source. -/
def packetAttrStep (st : Packet × List Nat) (tag : AbciAttribute) :
    Except ChannelError (Packet × List Nat) :=
  let (packet, write_ack) := st
  if tag.key = "packet_src_port" then
    if validIdent tag.value then .ok ({ packet with source_port := tag.value }, write_ack)
    else .error .identifier
  else if tag.key = "packet_src_channel" then
    if validIdent tag.value then .ok ({ packet with source_channel := tag.value }, write_ack)
    else .error .identifier
  else if tag.key = "packet_dst_port" then
    if validIdent tag.value then .ok ({ packet with destination_port := tag.value }, write_ack)
    else .error .identifier
  else if tag.key = "packet_dst_channel" then
    if validIdent tag.value then .ok ({ packet with destination_channel := tag.value }, write_ack)
    else .error .identifier
  else if tag.key = "packet_sequence" then
    match parseU64 tag.value with
    | some n => .ok ({ packet with sequence := n }, write_ack)
    | none => .error (.invalidStringAsSequence tag.value)
  else if tag.key = "packet_timeout_height" then
    match parse_timeout_height tag.value with
    | .error e => .error e
    | .ok none => .error .missingHeight
    | .ok (some h) => .ok ({ packet with timeout_height := h }, write_ack)
  else if tag.key = "packet_timeout_timestamp" then
    match parseU64 tag.value with
    | some n => .ok ({ packet with timeout_timestamp := n }, write_ack)
    | none => .error .invalidPacketTimestamp
  else if tag.key = "packet_data" then
    .ok ({ packet with data := strBytes tag.value }, write_ack)
  else if tag.key = "packet_ack" then
    .ok (packet, strBytes tag.value)
  else
    .ok (packet, write_ack)

/-- Scan the attributes of a packet event once, building the packet and the
write-ack bytes. -/
def extract_packet_and_write_ack_from_tx (event : AbciEvent) :
    Except ChannelError (Packet × List Nat) :=
  event.attributes.foldlM packetAttrStep (defaultPacket, [])

/-- `send_packet` decode: any extraction error is replaced by
`AbciConversionFailed` carrying the event kind. -/
def send_packet_try_from_abci_event (event : AbciEvent) (height : Height) :
    Except ChannelError SendPacketEv :=
  match extract_packet_and_write_ack_from_tx event with
  | .ok (packet, _write_ack) => .ok { height := height, packet := packet }
  | .error _ => .error (.abciConversionFailed event.kind)

/-- `write_acknowledgement` decode. -/
def write_acknowledgement_try_from_abci_event (event : AbciEvent) (height : Height) :
    Except ChannelError WriteAckEv :=
  match extract_packet_and_write_ack_from_tx event with
  | .ok (packet, write_ack) => .ok { height := height, packet := packet, ack := write_ack }
  | .error _ => .error (.abciConversionFailed event.kind)

/-- Client event attributes; defaults as in the ibc crate
(`ClientAttributes::default`). -/
structure ClientAttributes where
  height : Height
  client_id : String
  client_type : String
  consensus_height : Height
deriving DecidableEq, Repr

/-- The default client attributes record the scan starts from. -/
def defaultClientAttributes : ClientAttributes :=
  { height := ⟨0, 0⟩
    client_id := "07-tendermint-0"
    client_type := "07-tendermint"
    consensus_height := ⟨0, 0⟩ }

/-- Modelled from the spec: `ClientType` parsing accepts the known client
type tags of the repository; it lives outside the given source files. -/
def parseClientType (s : String) : Option String :=
  if s ∈ ["07-tendermint", "10-grandpa", "11-beefy", "09-localhost", "08-wasm"] then some s
  else none

/-- One step of the client attribute scan. -/
def clientAttrStep (attr : ClientAttributes) (tag : AbciAttribute) :
    Except ClientError ClientAttributes :=
  if tag.key = "client_id" then
    if validIdent tag.value then .ok { attr with client_id := tag.value }
    else .error .invalidClientIdentifier
  else if tag.key = "client_type" then
    match parseClientType tag.value with
    | some t => .ok { attr with client_type := t }
    | none => .error (.unknownClientType tag.value)
  else if tag.key = "consensus_height" then
    match heightFromStr tag.value with
    | .ok h => .ok { attr with consensus_height := h }
    | .error _ => .error (.invalidStringAsHeight tag.value)
  else if tag.key = "height" then
    match heightFromStr tag.value with
    | .ok h => .ok { attr with height := h }
    | .error _ => .error (.invalidStringAsHeight tag.value)
  else
    .ok attr

/-- Scan the attributes of a client event; if the scanned height stayed at
its default, substitute the fallback height of the enclosing block. -/
def client_extract_attributes_from_tx (event : AbciEvent) (height : Height) :
    Except ClientError ClientAttributes :=
  match event.attributes.foldlM clientAttrStep defaultClientAttributes with
  | .error e => .error e
  | .ok attr =>
    if attr.height = ⟨0, 0⟩ then .ok { attr with height := height } else .ok attr

/-- A decoded light-client header.  Modelled from the spec: the concrete
ics07 tendermint header type and its protobuf codec live in the repository
outside the given source files; the spec only requires that well-formed
bytes decode and that re-encoding a decoded header restores its encoding,
so a header is modelled by its byte encoding. -/
structure Header where
  bytes : List Nat
deriving DecidableEq, Repr

/-- Modelled from the spec: `ics07_tendermint::client_message::decode_header`;
decodable byte strings are modelled as the non-empty ones. -/
def tm_decode_header (header_bytes : List Nat) : Except ClientError Header :=
  if header_bytes.isEmpty then .error .headerDecodeError else .ok ⟨header_bytes⟩

/-- `decode_header` of the decoder source: delegate to the ics07 decoder. -/
def decode_header (header_bytes : List Nat) : Except ClientError Header :=
  tm_decode_header header_bytes

/-- Re-encoding of a decoded header (`encode_vec`); in the byte-encoding
model this returns the bytes. -/
def headerEncodeVec (h : Header) : List Nat :=
  h.bytes

/-- The first `header` attribute of an event, if any: the source loop
returns on the first matching key. -/
def findHeaderVal : List AbciAttribute → Option String
  | [] => none
  | tag :: rest => if tag.key = "header" then some tag.value else findHeaderVal rest

/-- `extract_header_from_tx`: hex-decode the first `header` attribute and
decode it; a hex failure is `MalformedHeader`, no attribute at all is
`MissingRawHeader`. -/
def extract_header_from_tx : List AbciAttribute → Except ClientError Header
  | [] => .error .missingRawHeader
  | tag :: rest =>
    if tag.key = "header" then
      match hexDecode tag.value with
      | none => .error .malformedHeader
      | some header_bytes => decode_header header_bytes
    else
      extract_header_from_tx rest

/-- The decoded `UpdateClient` event: common client attributes plus the
optional re-encoded header bytes. -/
structure UpdateClientEv where
  common : ClientAttributes
  header : Option (List Nat)
deriving DecidableEq, Repr

/-- `update_client` decode: the header extraction result is demoted to an
`Option` with `.ok()`, so extraction failures are dropped rather than
surfaced. -/
def update_client_try_from_abci_event (event : AbciEvent) (height : Height) :
    Except ClientError UpdateClientEv :=
  match client_extract_attributes_from_tx event height with
  | .error e => .error e
  | .ok attributes =>
    .ok { common := attributes
          header := (extract_header_from_tx event.attributes).toOption.map headerEncodeVec }

/-! ## Helper lemmas -/

/-- Whether an error is a modelled Rust panic. -/
def Err.isPanicked : Err → Bool
  | .panicked _ => true
  | _ => false

/-- A singleton batch returns exactly what its one event produced, whatever
the mode. -/
theorem parse_events_singleton {relayEnabled : Bool} {source sink : Chain}
    {ev : IbcEvent} {p : List OutMsg × List LogEntry} (mode : Option Mode)
    (h : handleEvent relayEnabled source sink ev = .ok p) :
    parse_events relayEnabled source sink [ev] mode = .ok p := by
  cases p with
  | mk ms ls =>
    unfold parse_events runEvents
    rw [h]
    simp only [runEvents, List.append_nil]
    cases mode with
    | none => rfl
    | some m => cases m <;> rfl

/-- A singleton batch surfaces the error its one event raised, whatever the
mode. -/
theorem parse_events_singleton_error {relayEnabled : Bool} {source sink : Chain}
    {ev : IbcEvent} {e : Err} (mode : Option Mode)
    (h : handleEvent relayEnabled source sink ev = .error e) :
    parse_events relayEnabled source sink [ev] mode = .error e := by
  unfold parse_events runEvents
  rw [h]

/-- Full characterization of the `OpenInitConnection` arm when every query
resolves: the emitted `MsgConnectionOpenTry`, field by field. -/
theorem handleOpenInitConnection_spec
    (source sink : Chain) (a : ConnEventAttrs) (cid : String)
    (cr : QueryConnResponse) (connEnd : ConnectionEnd)
    (csr : QueryClientStateResponse) (cs : ClientState)
    (consr : QueryProofResponse) (ph : Height) (hp : List Nat)
    (hcid : a.connection_id = some cid)
    (h1 : source.query_connection_end a.height cid = .ok cr)
    (h2 : cr.connection = some connEnd)
    (h3 : cr.proof.isEmpty = false)
    (h4 : source.query_client_state a.height a.client_id = .ok csr)
    (h5 : cr.proof_height = some ph)
    (h6 : csr.client_state = some cs)
    (h7 : source.query_client_consensus a.height a.client_id cs.latest_height = .ok consr)
    (h8 : query_host_consensus_state_proof sink cs = .ok hp)
    (h9 : consr.proof.isEmpty = false)
    (h10 : cs.latest_height.isZero = false)
    (h11 : ph.isZero = false) :
    handleOpenInitConnection source sink a = .ok
      ([OutMsg.connOpenTry {
        client_id := connEnd.counterparty.client_id
        client_state := some cs
        counterparty := ⟨a.client_id, some cid, source.prefixBytes⟩
        counterparty_versions := connEnd.versions
        proofs := ⟨cr.proof, (commitmentProofBytes csr.proof).toOption,
                   some ⟨consr.proof, cs.latest_height⟩, none, ph⟩
        delay_period := connEnd.delay_period
        signer := sink.account_id
        host_consensus_state_proof := hp }], []) := by
  simp only [handleOpenInitConnection, hcid, h1, h2, h4, h5, h6, h7, h8,
    commitmentProofBytes, h3, consensusProofNew, h10, proofsNew, h11, h9,
    Bool.false_eq_true, if_false]

/-- Full characterization of the `OpenTryConnection` arm when every query
resolves and the counterparty connection id and a first version exist. -/
theorem handleOpenTryConnection_spec
    (source sink : Chain) (a : ConnEventAttrs) (cid ccid ver : String)
    (cr : QueryConnResponse) (connEnd : ConnectionEnd)
    (csr : QueryClientStateResponse) (cs : ClientState)
    (consr : QueryProofResponse) (ph : Height) (hp : List Nat)
    (hcid : a.connection_id = some cid)
    (h1 : source.query_connection_end a.height cid = .ok cr)
    (h2 : cr.connection = some connEnd)
    (h3 : cr.proof.isEmpty = false)
    (h4 : source.query_client_state a.height a.client_id = .ok csr)
    (h5 : cr.proof_height = some ph)
    (h6 : csr.client_state = some cs)
    (h7 : source.query_client_consensus a.height a.client_id cs.latest_height = .ok consr)
    (h8 : query_host_consensus_state_proof sink cs = .ok hp)
    (hccid : connEnd.counterparty.connection_id = some ccid)
    (h9 : consr.proof.isEmpty = false)
    (h10 : cs.latest_height.isZero = false)
    (h11 : ph.isZero = false)
    (hver : connEnd.versions.head? = some ver) :
    handleOpenTryConnection source sink a = .ok
      ([OutMsg.connOpenAck {
        connection_id := ccid
        counterparty_connection_id := cid
        client_state := some cs
        proofs := ⟨cr.proof, (commitmentProofBytes csr.proof).toOption,
                   some ⟨consr.proof, cs.latest_height⟩, none, ph⟩
        host_consensus_state_proof := hp
        version := ver
        signer := sink.account_id }], []) := by
  simp only [handleOpenTryConnection, hcid, h1, h2, h4, h5, h6, h7, h8, hccid,
    commitmentProofBytes, h3, consensusProofNew, h10, proofsNew, h11, h9, hver,
    Bool.false_eq_true, if_false]

/-- The `SendPacket` arm defers (no message, a debug line) when the
principal connection has a positive delay and the relay flag is on. -/
theorem handleSendPacket_delay
    (source sink : Chain) (e : SendPacketEv)
    (chr : QueryChanResponse) (ce : ChannelEnd) (cid : String)
    (cr : QueryConnResponse) (conn : ConnectionEnd)
    (h1 : source.query_channel_end e.height e.packet.source_channel
      e.packet.source_port = .ok chr)
    (h2 : chr.channel = some ce)
    (h3 : ce.connection_hops.head? = some cid)
    (h4 : source.query_connection_end e.height cid = .ok cr)
    (h5 : cr.connection = some conn)
    (h6 : conn.delay_period ≠ 0) :
    handleSendPacket true source sink e =
      .ok ([], [.debug "Skipping packet relay because of connection delays"]) := by
  simp only [handleSendPacket, h1, h2, h3, h4, h5, h6, if_true, if_false,
    Bool.true_eq_false, ite_false, ite_true, ne_eq, not_false_eq_true]

/-- The `SendPacket` arm drops the packet with one warning when the delay
gate passes but both timeouts are zero. -/
theorem handleSendPacket_zero_timeout
    (source sink : Chain) (e : SendPacketEv)
    (chr : QueryChanResponse) (ce : ChannelEnd) (cid : String)
    (cr : QueryConnResponse) (conn : ConnectionEnd)
    (h1 : source.query_channel_end e.height e.packet.source_channel
      e.packet.source_port = .ok chr)
    (h2 : chr.channel = some ce)
    (h3 : ce.connection_hops.head? = some cid)
    (h4 : source.query_connection_end e.height cid = .ok cr)
    (h5 : cr.connection = some conn)
    (h6 : conn.delay_period = 0)
    (h7 : e.packet.timeout_height.isZero = true)
    (h8 : e.packet.timeout_timestamp = 0) :
    handleSendPacket true source sink e =
      .ok ([], [.warn "Skipping packet relay because packet timeout is zero"]) := by
  simp only [handleSendPacket, h1, h2, h3, h4, h5, h6, h7, h8, if_true, if_false,
    Bool.true_eq_false, ite_false, ite_true, ne_eq, not_true_eq_false, and_self]

/-- The `WriteAcknowledgement` arm defers (no message, a debug line) when
the principal connection has a positive delay. -/
theorem handleWriteAck_delay
    (source sink : Chain) (e : WriteAckEv)
    (chr : QueryChanResponse) (ce : ChannelEnd) (cid : String)
    (cr : QueryConnResponse) (conn : ConnectionEnd)
    (h1 : source.query_channel_end e.height e.packet.destination_channel
      e.packet.destination_port = .ok chr)
    (h2 : chr.channel = some ce)
    (h3 : ce.connection_hops.head? = some cid)
    (h4 : source.query_connection_end e.height cid = .ok cr)
    (h5 : cr.connection = some conn)
    (h6 : conn.delay_period ≠ 0) :
    handleWriteAck source sink e =
      .ok ([], [.debug "Skipping write acknowledgement because of connection delay"]) := by
  simp only [handleWriteAck, h1, h2, h3, h4, h5, h6, if_true, ne_eq,
    not_false_eq_true, ite_true]

/-- The `OpenTryChannel` arm panics at the `expect` on the counterparty
channel id when the queried channel end has none. -/
theorem handleOpenTryChannel_panics
    (source sink : Chain) (a : ChanEventAttrs) (chanId : String)
    (chr : QueryChanResponse) (ce : ChannelEnd) (ph : Height)
    (hch : a.channel_id = some chanId)
    (h1 : source.query_channel_end a.height chanId a.port_id = .ok chr)
    (h2 : chr.channel = some ce)
    (h3 : chr.proof.isEmpty = false)
    (h4 : chr.proof_height = some ph)
    (h5 : ph.isZero = false)
    (h6 : ce.counterparty.channel_id = none) :
    handleOpenTryChannel source sink a = .error (.panicked "Expect channel id to be set") := by
  simp only [handleOpenTryChannel, hch, h1, h2, h4, h6, commitmentProofBytes, h3,
    proofsNew, h5, Bool.false_eq_true, if_false]

/-! ## Concrete fixtures used by witnesses and counterexamples -/

/-- Event height used by the fixtures. -/
def evHeightA : Height := ⟨1, 10⟩

/-- Proof height returned by the fixture queries. -/
def proofHeightA : Height := ⟨1, 11⟩

/-- A connection end with zero delay. -/
def connEndA : ConnectionEnd :=
  ⟨"07-tendermint-0", ⟨"07-tendermint-1", none, strBytes "ibc"⟩, ["1"], 0⟩

/-- A connection end whose counterparty connection id is set. -/
def connEndB : ConnectionEnd :=
  ⟨"07-tendermint-0", ⟨"07-tendermint-1", some "connection-1", strBytes "ibc"⟩, ["1"], 0⟩

/-- A connection end with a positive delay period (10 nanoseconds). -/
def connEndDelay : ConnectionEnd :=
  ⟨"07-tendermint-0", ⟨"07-tendermint-1", none, strBytes "ibc"⟩, ["1"], 10⟩

/-- A channel end whose counterparty channel id is set. -/
def chanEndA : ChannelEnd :=
  ⟨.open, .unordered, ⟨"transfer", some "channel-1"⟩, ["connection-0"], "ics20-1"⟩

/-- A channel end whose counterparty channel id is absent. -/
def chanEndNoCp : ChannelEnd :=
  ⟨.tryOpen, .unordered, ⟨"transfer", none⟩, ["connection-0"], "ics20-1"⟩

/-- A client state with a non-zero latest height. -/
def csA : ClientState := ⟨⟨1, 9⟩⟩

/-- A packet with a non-zero timeout height. -/
def pktA : Packet :=
  ⟨42, "transfer", "channel-0", "transfer", "channel-1", [1, 2], ⟨1, 1000⟩, 0⟩

/-- A packet with both timeouts zero. -/
def pktZero : Packet :=
  ⟨7, "transfer", "channel-0", "transfer", "channel-1", [1, 2], ⟨0, 0⟩, 0⟩

/-- A `SendPacket` fixture event (relayable timeout). -/
def spA : SendPacketEv := ⟨evHeightA, pktA⟩

/-- A `SendPacket` fixture event with zero timeouts. -/
def spZero : SendPacketEv := ⟨evHeightA, pktZero⟩

/-- A `WriteAcknowledgement` fixture event. -/
def waA : WriteAckEv := ⟨evHeightA, pktA, strBytes "ack"⟩

/-- An `OpenInitConnection`-style event attribute record carrying a
connection id. -/
def connEvA : ConnEventAttrs :=
  ⟨evHeightA, some "connection-0", "07-tendermint-0", none, "07-tendermint-1"⟩

/-- A connection event attribute record with no connection id. -/
def connEvNoId : ConnEventAttrs :=
  ⟨evHeightA, none, "07-tendermint-0", none, "07-tendermint-1"⟩

/-- A channel event attribute record carrying a channel id. -/
def chanEvA : ChanEventAttrs :=
  ⟨evHeightA, "transfer", some "channel-0", "connection-0", "transfer", none⟩

/-- A channel event attribute record with no channel id. -/
def chanEvNoId : ChanEventAttrs :=
  ⟨evHeightA, "transfer", none, "connection-0", "transfer", none⟩

/-- Connection query response of the fixture source chain. -/
def connRespA : QueryConnResponse := ⟨some connEndA, [1], some proofHeightA⟩

/-- Connection query response with the counterparty connection id set. -/
def connRespB : QueryConnResponse := ⟨some connEndB, [1], some proofHeightA⟩

/-- Connection query response with a delayed connection. -/
def connRespDelay : QueryConnResponse := ⟨some connEndDelay, [1], some proofHeightA⟩

/-- Channel query response of the fixture source chain. -/
def chanRespA : QueryChanResponse := ⟨some chanEndA, [2], some proofHeightA⟩

/-- Channel query response whose channel end lacks a counterparty channel. -/
def chanRespNoCp : QueryChanResponse := ⟨some chanEndNoCp, [2], some proofHeightA⟩

/-- Client state query response. -/
def csRespA : QueryClientStateResponse := ⟨some csA, [3], some proofHeightA⟩

/-- Consensus query response. -/
def consRespA : QueryProofResponse := ⟨[4], some proofHeightA⟩

/-- Fixture source chain: zero-delay connection, all queries succeed. -/
def srcChain : Chain :=
  { query_connection_end := fun _ _ => .ok connRespA
    query_channel_end := fun _ _ _ => .ok chanRespA
    query_client_state := fun _ _ => .ok csRespA
    query_client_consensus := fun _ _ _ => .ok consRespA
    query_packet_commitment := fun _ _ _ _ => .ok ⟨[5], some proofHeightA⟩
    query_packet_acknowledgement := fun _ _ _ _ => .ok ⟨[6], some proofHeightA⟩
    query_host_consensus_state_proof := fun _ => .ok none
    account_id := "src-signer"
    client_type := "07-tendermint"
    prefixBytes := strBytes "ibc" }

/-- Fixture source chain whose counterparty connection id is set. -/
def srcChainB : Chain :=
  { srcChain with query_connection_end := fun _ _ => .ok connRespB }

/-- Fixture source chain whose connection carries a positive delay. -/
def srcDelay : Chain :=
  { srcChain with query_connection_end := fun _ _ => .ok connRespDelay }

/-- Fixture source chain whose channel end has no counterparty channel. -/
def srcNoCp : Chain :=
  { srcChain with query_channel_end := fun _ _ _ => .ok chanRespNoCp }

/-- Fixture sink chain with a Tendermint client type; its host consensus
proof query answers `None`, per the port contract. -/
def sinkChain : Chain :=
  { query_connection_end := fun _ _ => .ok connRespA
    query_channel_end := fun _ _ _ => .ok chanRespA
    query_client_state := fun _ _ => .ok csRespA
    query_client_consensus := fun _ _ _ => .ok consRespA
    query_packet_commitment := fun _ _ _ _ => .ok ⟨[5], some proofHeightA⟩
    query_packet_acknowledgement := fun _ _ _ _ => .ok ⟨[6], some proofHeightA⟩
    query_host_consensus_state_proof := fun _ => .ok none
    account_id := "sink-signer"
    client_type := "07-tendermint"
    prefixBytes := strBytes "ibc" }

/-- Fixture sink chain with a non-Tendermint (grandpa) client type; its
host consensus proof query answers bytes, per the port contract. -/
def sinkGrandpa : Chain :=
  { sinkChain with
    client_type := "10-grandpa"
    query_host_consensus_state_proof := fun _ => .ok (some [7, 7]) }

/-! ## Claims -/

/-- C1: for every `SendPacket` or `WriteAcknowledgement` event whose
channel resolves through `connection_hops[0]` to a connection end with
`delay_period > 0`, the translator emits no outbound message for that event
and returns success for the batch: the event is deferred, not an error. -/
theorem C1_connection_delay_defers
    (relayEnabled : Bool) (source sink : Chain) (mode : Option Mode)
    (sp : SendPacketEv) (wa : WriteAckEv)
    (chrS chrW : QueryChanResponse) (ceS ceW : ChannelEnd) (cidS cidW : String)
    (crS crW : QueryConnResponse) (connS connW : ConnectionEnd) :
    (source.query_channel_end sp.height sp.packet.source_channel
        sp.packet.source_port = .ok chrS →
      chrS.channel = some ceS →
      ceS.connection_hops.head? = some cidS →
      source.query_connection_end sp.height cidS = .ok crS →
      crS.connection = some connS →
      0 < connS.delay_period →
      ∃ logs, parse_events relayEnabled source sink [.sendPacket sp] mode =
        .ok ([], logs)) ∧
    (source.query_channel_end wa.height wa.packet.destination_channel
        wa.packet.destination_port = .ok chrW →
      chrW.channel = some ceW →
      ceW.connection_hops.head? = some cidW →
      source.query_connection_end wa.height cidW = .ok crW →
      crW.connection = some connW →
      0 < connW.delay_period →
      ∃ logs, parse_events relayEnabled source sink [.writeAcknowledgement wa] mode =
        .ok ([], logs)) := by
  constructor
  · intro h1 h2 h3 h4 h5 h6
    cases relayEnabled with
    | false => exact ⟨[], parse_events_singleton mode rfl⟩
    | true =>
      exact ⟨_, parse_events_singleton mode
        (handleSendPacket_delay source sink sp chrS ceS cidS crS connS
          h1 h2 h3 h4 h5 (Nat.pos_iff_ne_zero.mp h6))⟩
  · intro h1 h2 h3 h4 h5 h6
    exact ⟨_, parse_events_singleton mode
      (handleWriteAck_delay source sink wa chrW ceW cidW crW connW
        h1 h2 h3 h4 h5 (Nat.pos_iff_ne_zero.mp h6))⟩

/-- C1 witness: concrete delayed connection, both event kinds. -/
theorem C1_witness :
    (∃ logs, parse_events true srcDelay sinkChain [.sendPacket spA] none =
      .ok ([], logs)) ∧
    (∃ logs, parse_events true srcDelay sinkChain [.writeAcknowledgement waA] none =
      .ok ([], logs)) := by
  have t := C1_connection_delay_defers true srcDelay sinkChain none spA waA
    chanRespA chanRespA chanEndA chanEndA "connection-0" "connection-0"
    connRespDelay connRespDelay connEndDelay connEndDelay
  exact ⟨t.1 rfl rfl rfl rfl rfl (by decide), t.2 rfl rfl rfl rfl rfl (by decide)⟩

/-- C2 counterexample: a `SendPacket` whose packet has both timeouts zero
but whose connection has a positive delay is skipped at the delay gate with
a debug line only, so the claimed single warning is not logged (the claim
as stated is false; no message and success still hold). -/
theorem C2_counterexample :
    parse_events true srcDelay sinkChain [.sendPacket spZero] none =
      .ok ([], [.debug "Skipping packet relay because of connection delays"]) ∧
    warnCount [.debug "Skipping packet relay because of connection delays"] = 0 := by
  exact ⟨rfl, rfl⟩

/-- C2 (amended): for every `SendPacket` event with both timeouts zero
whose principal connection has `delay_period = 0` and with packet relay
enabled, the translator emits no outbound message, logs exactly one
warning, and returns success for the batch. -/
theorem C2_zero_timeout_drops_with_warning
    (mode : Option Mode) (source sink : Chain) (sp : SendPacketEv)
    (chr : QueryChanResponse) (ce : ChannelEnd) (cid : String)
    (cr : QueryConnResponse) (conn : ConnectionEnd)
    (h1 : source.query_channel_end sp.height sp.packet.source_channel
      sp.packet.source_port = .ok chr)
    (h2 : chr.channel = some ce)
    (h3 : ce.connection_hops.head? = some cid)
    (h4 : source.query_connection_end sp.height cid = .ok cr)
    (h5 : cr.connection = some conn)
    (h6 : conn.delay_period = 0)
    (h7 : sp.packet.timeout_height.isZero = true)
    (h8 : sp.packet.timeout_timestamp = 0) :
    parse_events true source sink [.sendPacket sp] mode =
      .ok ([], [.warn "Skipping packet relay because packet timeout is zero"]) ∧
    warnCount [.warn "Skipping packet relay because packet timeout is zero"] = 1 :=
  ⟨parse_events_singleton mode
    (handleSendPacket_zero_timeout source sink sp chr ce cid cr conn
      h1 h2 h3 h4 h5 h6 h7 h8), rfl⟩

/-- C2 witness: concrete zero-delay connection, zero-timeout packet. -/
theorem C2_witness :
    parse_events true srcChain sinkChain [.sendPacket spZero] none =
      .ok ([], [.warn "Skipping packet relay because packet timeout is zero"]) ∧
    warnCount [.warn "Skipping packet relay because packet timeout is zero"] = 1 :=
  C2_zero_timeout_drops_with_warning none srcChain sinkChain spZero
    chanRespA chanEndA "connection-0" connRespA connEndA
    rfl rfl rfl rfl rfl rfl rfl rfl

/-- C3: an `OpenInitConnection` event carrying a connection id yields a
`MsgConnectionOpenTry` whose `client_id` is the source connection end
counterparty client, whose `counterparty.client_id` is the event client id,
whose `counterparty.connection_id` is the event connection id, and whose
counterparty prefix is the source connection prefix. -/
theorem C3_open_init_builds_open_try
    (relayEnabled : Bool) (mode : Option Mode)
    (source sink : Chain) (a : ConnEventAttrs) (cid : String)
    (cr : QueryConnResponse) (connEnd : ConnectionEnd)
    (csr : QueryClientStateResponse) (cs : ClientState)
    (consr : QueryProofResponse) (ph : Height) (hp : List Nat)
    (hcid : a.connection_id = some cid)
    (h1 : source.query_connection_end a.height cid = .ok cr)
    (h2 : cr.connection = some connEnd)
    (h3 : cr.proof.isEmpty = false)
    (h4 : source.query_client_state a.height a.client_id = .ok csr)
    (h5 : cr.proof_height = some ph)
    (h6 : csr.client_state = some cs)
    (h7 : source.query_client_consensus a.height a.client_id cs.latest_height = .ok consr)
    (h8 : query_host_consensus_state_proof sink cs = .ok hp)
    (h9 : consr.proof.isEmpty = false)
    (h10 : cs.latest_height.isZero = false)
    (h11 : ph.isZero = false) :
    ∃ msg : MsgConnectionOpenTry,
      parse_events relayEnabled source sink [.openInitConnection a] mode =
        .ok ([OutMsg.connOpenTry msg], []) ∧
      msg.client_id = connEnd.counterparty.client_id ∧
      msg.counterparty.client_id = a.client_id ∧
      msg.counterparty.connection_id = some cid ∧
      msg.counterparty.prefixBytes = source.prefixBytes :=
  ⟨_, parse_events_singleton mode
    (handleOpenInitConnection_spec source sink a cid cr connEnd csr cs consr ph hp
      hcid h1 h2 h3 h4 h5 h6 h7 h8 h9 h10 h11), rfl, rfl, rfl, rfl⟩

/-- C3 witness: concrete fixture chains. -/
theorem C3_witness :
    ∃ msg : MsgConnectionOpenTry,
      parse_events true srcChain sinkChain [.openInitConnection connEvA] none =
        .ok ([OutMsg.connOpenTry msg], []) ∧
      msg.client_id = connEndA.counterparty.client_id ∧
      msg.counterparty.client_id = connEvA.client_id ∧
      msg.counterparty.connection_id = some "connection-0" ∧
      msg.counterparty.prefixBytes = srcChain.prefixBytes :=
  C3_open_init_builds_open_try true none srcChain sinkChain connEvA "connection-0"
    connRespA connEndA csRespA csA consRespA proofHeightA []
    rfl rfl rfl rfl rfl rfl rfl rfl (by rfl) rfl rfl rfl

/-- C5 counterexample: with the relay flag false, a `WriteAcknowledgement`
event still produces its `MsgAcknowledgement`; the flag does not skip it,
so the claimed uniform admission is false. -/
theorem C5_counterexample :
    parse_events false srcChain sinkChain [.writeAcknowledgement waA] none =
      .ok ([.acknowledgement
        ⟨pktA, strBytes "ack", ⟨[6], none, none, none, proofHeightA⟩, "sink-signer"⟩], []) := by
  rfl

/-- C5 (amended): the `packet_relay_enabled` flag gates only `SendPacket`:
with the flag false a `SendPacket` event is skipped silently, while a
`WriteAcknowledgement` event is processed exactly as with the flag true. -/
theorem C5_flag_gates_only_send_packet
    (source sink : Chain) (mode : Option Mode) (sp : SendPacketEv) (wa : WriteAckEv) :
    parse_events false source sink [.sendPacket sp] mode = .ok ([], []) ∧
    parse_events false source sink [.writeAcknowledgement wa] mode =
      parse_events true source sink [.writeAcknowledgement wa] mode :=
  ⟨parse_events_singleton mode rfl, rfl⟩

/-- C7 counterexample: an `OpenTryChannel` event over a channel end with no
counterparty channel id makes the translator panic at the `expect`, rather
than return the claimed typed `MissingChannelId` error value. -/
theorem C7_counterexample :
    parse_events true srcNoCp sinkChain [.openTryChannel chanEvA] none =
      .error (.panicked "Expect channel id to be set") ∧
    (Err.panicked "Expect channel id to be set").isPanicked = true := by
  exact ⟨rfl, rfl⟩

/-- C7 (amended): for every `OpenTryChannel` event carrying a channel id,
if the queried source channel end has no counterparty channel id the
builder crashes with the panic message of the `expect` (a modelled Rust
panic, not a returned typed error), and no outbound message is left. -/
theorem C7_open_try_channel_missing_counterparty_panics
    (relayEnabled : Bool) (mode : Option Mode) (source sink : Chain)
    (a : ChanEventAttrs) (chanId : String)
    (chr : QueryChanResponse) (ce : ChannelEnd) (ph : Height)
    (hch : a.channel_id = some chanId)
    (h1 : source.query_channel_end a.height chanId a.port_id = .ok chr)
    (h2 : chr.channel = some ce)
    (h3 : chr.proof.isEmpty = false)
    (h4 : chr.proof_height = some ph)
    (h5 : ph.isZero = false)
    (h6 : ce.counterparty.channel_id = none) :
    parse_events relayEnabled source sink [.openTryChannel a] mode =
      .error (.panicked "Expect channel id to be set") ∧
    (Err.panicked "Expect channel id to be set").isPanicked = true :=
  ⟨parse_events_singleton_error mode
    (handleOpenTryChannel_panics source sink a chanId chr ce ph
      hch h1 h2 h3 h4 h5 h6), rfl⟩

/-- C7 witness: concrete channel end without counterparty channel id. -/
theorem C7_witness :
    parse_events true srcNoCp sinkGrandpa [.openTryChannel chanEvA] none =
      .error (.panicked "Expect channel id to be set") ∧
    (Err.panicked "Expect channel id to be set").isPanicked = true :=
  C7_open_try_channel_missing_counterparty_panics true none srcNoCp sinkGrandpa
    chanEvA "channel-0" chanRespNoCp chanEndNoCp proofHeightA
    rfl rfl rfl rfl rfl rfl rfl

/-- C9: running the translator in light mode yields exactly the same result
(same ordered outbound message list, same logs, same errors) as full mode
or no mode: the mode never alters the emitted messages. -/
theorem C9_mode_never_alters_output
    (relayEnabled : Bool) (source sink : Chain) (events : List IbcEvent)
    (m1 m2 : Option Mode) :
    parse_events relayEnabled source sink events m1 =
      parse_events relayEnabled source sink events m2 := by
  unfold parse_events
  cases runEvents relayEnabled source sink events with
  | error e => rfl
  | ok r =>
    cases m1 with
    | none =>
      cases m2 with
      | none => rfl
      | some m => cases m <;> rfl
    | some m =>
      cases m <;> cases m2 with
      | none => rfl
      | some m2' => cases m2' <;> rfl

/-- C10: a connection handshake event with no connection id, and a channel
handshake event (open init/try/ack) with no channel id, produce no message,
no log line, and a successful batch: a silent skip, not an error. -/
theorem C10_missing_identifier_skips
    (relayEnabled : Bool) (source sink : Chain) (mode : Option Mode)
    (a b c : ConnEventAttrs) (d e f : ChanEventAttrs) :
    (a.connection_id = none →
      parse_events relayEnabled source sink [.openInitConnection a] mode = .ok ([], [])) ∧
    (b.connection_id = none →
      parse_events relayEnabled source sink [.openTryConnection b] mode = .ok ([], [])) ∧
    (c.connection_id = none →
      parse_events relayEnabled source sink [.openAckConnection c] mode = .ok ([], [])) ∧
    (d.channel_id = none →
      parse_events relayEnabled source sink [.openInitChannel d] mode = .ok ([], [])) ∧
    (e.channel_id = none →
      parse_events relayEnabled source sink [.openTryChannel e] mode = .ok ([], [])) ∧
    (f.channel_id = none →
      parse_events relayEnabled source sink [.openAckChannel f] mode = .ok ([], [])) := by
  refine ⟨fun h => ?_, fun h => ?_, fun h => ?_, fun h => ?_, fun h => ?_, fun h => ?_⟩
  · exact parse_events_singleton mode (by simp only [handleEvent, handleOpenInitConnection, h])
  · exact parse_events_singleton mode (by simp only [handleEvent, handleOpenTryConnection, h])
  · exact parse_events_singleton mode (by simp only [handleEvent, handleOpenAckConnection, h])
  · exact parse_events_singleton mode (by simp only [handleEvent, handleOpenInitChannel, h])
  · exact parse_events_singleton mode (by simp only [handleEvent, handleOpenTryChannel, h])
  · exact parse_events_singleton mode (by simp only [handleEvent, handleOpenAckChannel, h])

/-- C10 witness: concrete events with the optional identifiers absent. -/
theorem C10_witness :
    (parse_events true srcChain sinkChain [.openInitConnection connEvNoId] none = .ok ([], [])) ∧
    (parse_events true srcChain sinkChain [.openTryConnection connEvNoId] none = .ok ([], [])) ∧
    (parse_events true srcChain sinkChain [.openAckConnection connEvNoId] none = .ok ([], [])) ∧
    (parse_events true srcChain sinkChain [.openInitChannel chanEvNoId] none = .ok ([], [])) ∧
    (parse_events true srcChain sinkChain [.openTryChannel chanEvNoId] none = .ok ([], [])) ∧
    (parse_events true srcChain sinkChain [.openAckChannel chanEvNoId] none = .ok ([], [])) := by
  have t := C10_missing_identifier_skips true srcChain sinkChain none
    connEvNoId connEvNoId connEvNoId chanEvNoId chanEvNoId chanEvNoId
  exact ⟨t.1 rfl, t.2.1 rfl, t.2.2.1 rfl, t.2.2.2.1 rfl, t.2.2.2.2.1 rfl, t.2.2.2.2.2 rfl⟩

/-- An ABCI `send_packet` event whose timeout height attribute is the
literal zero string. -/
def sendPktAbciZero : AbciEvent :=
  ⟨"send_packet", [⟨"packet_sequence", "7"⟩, ⟨"packet_timeout_height", "0"⟩]⟩

/-- An ABCI `send_packet` event whose timeout height attribute is neither
zero nor a valid height. -/
def sendPktAbciBad : AbciEvent :=
  ⟨"send_packet", [⟨"packet_sequence", "7"⟩, ⟨"packet_timeout_height", "zzz"⟩]⟩

/-- C4 (evaluation at the failing input): `parse_timeout_height` maps the
literal zero string to no-height-timeout as the spec states, but the packet
extractor then converts that very result into the `MissingHeight` error, so
decoding an ABCI `send_packet` event with a zero timeout height attribute
fails (surfaced as `AbciConversionFailed` at the event level) instead of
succeeding; a timeout value that is neither the zero string nor a valid
height fails with `InvalidTimeoutHeight`; a valid height string parses. -/
theorem C4_zero_timeout_height_decode :
    parse_timeout_height "0" = .ok none ∧
    extract_packet_and_write_ack_from_tx sendPktAbciZero = .error .missingHeight ∧
    send_packet_try_from_abci_event sendPktAbciZero ⟨1, 5⟩ =
      .error (.abciConversionFailed "send_packet") ∧
    parse_timeout_height "zzz" = .error .invalidTimeoutHeight ∧
    extract_packet_and_write_ack_from_tx sendPktAbciBad = .error .invalidTimeoutHeight ∧
    parse_timeout_height "1-1000" = .ok (some ⟨1, 1000⟩) := by
  exact ⟨rfl, rfl, rfl, rfl, rfl, rfl⟩

/-- `extract_header_from_tx` in terms of the first `header` attribute. -/
theorem extract_header_eq (attrs : List AbciAttribute) :
    extract_header_from_tx attrs =
      match findHeaderVal attrs with
      | none => .error .missingRawHeader
      | some v =>
        match hexDecode v with
        | none => .error .malformedHeader
        | some bs => decode_header bs := by
  induction attrs with
  | nil => rfl
  | cons tag rest ih =>
    by_cases h : tag.key = "header"
    · simp only [extract_header_from_tx, findHeaderVal, h, if_true]
    · simp only [extract_header_from_tx, findHeaderVal, h, if_false, ih]

/-- An `update_client` ABCI event with a malformed (non-hex) header. -/
def updAbciMal : AbciEvent :=
  ⟨"update_client", [⟨"client_id", "07-tendermint-3"⟩, ⟨"header", "zz"⟩]⟩

/-- An `update_client` ABCI event with a well-formed header attribute. -/
def updAbciGood : AbciEvent :=
  ⟨"update_client", [⟨"client_id", "07-tendermint-3"⟩, ⟨"header", "0afe"⟩]⟩

/-- An `update_client` ABCI event with no header attribute. -/
def updAbciAbsent : AbciEvent :=
  ⟨"update_client", [⟨"client_id", "07-tendermint-3"⟩]⟩

/-- The client attributes all three update fixtures decode to. -/
def updAttrsG : ClientAttributes := ⟨⟨1, 5⟩, "07-tendermint-3", "07-tendermint", ⟨0, 0⟩⟩

/-- C6 counterexample: with a present but malformed (non-hex) header
attribute, `extract_header_from_tx` does fail with `MalformedHeader`, but
`update_client_try_from_abci_event` discards that failure with `.ok()` and
succeeds with no header bytes — decoding does not fail as claimed. -/
theorem C6_counterexample :
    extract_header_from_tx updAbciMal.attributes = .error .malformedHeader ∧
    update_client_try_from_abci_event updAbciMal ⟨1, 5⟩ = .ok ⟨updAttrsG, none⟩ := by
  exact ⟨rfl, rfl⟩

/-- C6 (amended): when decoding an `UpdateClient` ABCI event whose common
attributes parse, a present well-formed header attribute makes the decoded
event carry the re-encoded header bytes; a present but malformed header
makes `extract_header_from_tx` fail with `MalformedHeader`, yet the event
decode still succeeds with no header (the error is swallowed); an absent
header attribute makes the extraction fail with `MissingRawHeader`, also
swallowed, so absence is not an error. -/
theorem C6_update_client_header_handling
    (e : AbciEvent) (fallback : Height) (attrs : ClientAttributes)
    (ha : client_extract_attributes_from_tx e fallback = .ok attrs) :
    (∀ hd, extract_header_from_tx e.attributes = .ok hd →
      update_client_try_from_abci_event e fallback =
        .ok ⟨attrs, some (headerEncodeVec hd)⟩) ∧
    (∀ err, extract_header_from_tx e.attributes = .error err →
      update_client_try_from_abci_event e fallback = .ok ⟨attrs, none⟩) ∧
    (findHeaderVal e.attributes = none →
      extract_header_from_tx e.attributes = .error .missingRawHeader) ∧
    (∀ v, findHeaderVal e.attributes = some v → hexDecode v = none →
      extract_header_from_tx e.attributes = .error .malformedHeader) := by
  refine ⟨?_, ?_, ?_, ?_⟩
  · intro hd hh
    simp only [update_client_try_from_abci_event, ha, hh, Except.toOption]
    rfl
  · intro err hh
    simp only [update_client_try_from_abci_event, ha, hh, Except.toOption]
    rfl
  · intro hnone
    rw [extract_header_eq]
    simp only [hnone]
  · intro v hv hhex
    rw [extract_header_eq]
    simp only [hv, hhex]

/-- C6 witness: a well-formed, a malformed and an absent header attribute
on concrete update events. -/
theorem C6_witness :
    update_client_try_from_abci_event updAbciGood ⟨1, 5⟩ =
      .ok ⟨updAttrsG, some (headerEncodeVec ⟨[10, 254]⟩)⟩ ∧
    update_client_try_from_abci_event updAbciMal ⟨1, 5⟩ = .ok ⟨updAttrsG, none⟩ ∧
    extract_header_from_tx updAbciAbsent.attributes = .error .missingRawHeader ∧
    extract_header_from_tx updAbciMal.attributes = .error .malformedHeader := by
  have t1 := C6_update_client_header_handling updAbciGood ⟨1, 5⟩ updAttrsG rfl
  have t2 := C6_update_client_header_handling updAbciMal ⟨1, 5⟩ updAttrsG rfl
  have t3 := C6_update_client_header_handling updAbciAbsent ⟨1, 5⟩ updAttrsG rfl
  exact ⟨t1.1 ⟨[10, 254]⟩ rfl, t2.2.1 .malformedHeader rfl, t3.2.2.1 rfl,
    t2.2.2.2 "zz" rfl rfl⟩

/-- C8: for a sink whose client type is Tendermint the host consensus state
proof attached to connection handshake messages is the empty byte string
and the result does not depend on the sink port query at all (it is not
invoked); for a non-Tendermint sink satisfying the port contract (the query
answers `None` iff the client type is Tendermint) the attached proof equals
the bytes the query returns; and the `OpenInitConnection` and
`OpenTryConnection` builders put exactly that value into the outbound
message field. -/
theorem C8_host_consensus_state_proof_policy (sink : Chain) (cs : ClientState) :
    (containsSubstr sink.client_type "tendermint" = true →
      query_host_consensus_state_proof sink cs = .ok [] ∧
      ∀ f, query_host_consensus_state_proof
        { sink with query_host_consensus_state_proof := f } cs = .ok []) ∧
    (containsSubstr sink.client_type "tendermint" = false →
      ∀ r, sink.query_host_consensus_state_proof cs = .ok r →
        (r = none ↔ containsSubstr sink.client_type "tendermint" = true) →
        ∃ bs, r = some bs ∧ query_host_consensus_state_proof sink cs = .ok bs) ∧
    (∀ (source : Chain) (a : ConnEventAttrs) (cid : String)
        (cr : QueryConnResponse) (connEnd : ConnectionEnd)
        (csr : QueryClientStateResponse) (consr : QueryProofResponse)
        (ph : Height) (hp : List Nat),
      a.connection_id = some cid →
      source.query_connection_end a.height cid = .ok cr →
      cr.connection = some connEnd →
      cr.proof.isEmpty = false →
      source.query_client_state a.height a.client_id = .ok csr →
      cr.proof_height = some ph →
      csr.client_state = some cs →
      source.query_client_consensus a.height a.client_id cs.latest_height = .ok consr →
      query_host_consensus_state_proof sink cs = .ok hp →
      consr.proof.isEmpty = false →
      cs.latest_height.isZero = false →
      ph.isZero = false →
      ∃ msg : MsgConnectionOpenTry,
        handleOpenInitConnection source sink a = .ok ([OutMsg.connOpenTry msg], []) ∧
        msg.host_consensus_state_proof = hp) ∧
    (∀ (source : Chain) (a : ConnEventAttrs) (cid ccid ver : String)
        (cr : QueryConnResponse) (connEnd : ConnectionEnd)
        (csr : QueryClientStateResponse) (consr : QueryProofResponse)
        (ph : Height) (hp : List Nat),
      a.connection_id = some cid →
      source.query_connection_end a.height cid = .ok cr →
      cr.connection = some connEnd →
      cr.proof.isEmpty = false →
      source.query_client_state a.height a.client_id = .ok csr →
      cr.proof_height = some ph →
      csr.client_state = some cs →
      source.query_client_consensus a.height a.client_id cs.latest_height = .ok consr →
      query_host_consensus_state_proof sink cs = .ok hp →
      connEnd.counterparty.connection_id = some ccid →
      consr.proof.isEmpty = false →
      cs.latest_height.isZero = false →
      ph.isZero = false →
      connEnd.versions.head? = some ver →
      ∃ msg : MsgConnectionOpenAck,
        handleOpenTryConnection source sink a = .ok ([OutMsg.connOpenAck msg], []) ∧
        msg.host_consensus_state_proof = hp) := by
  refine ⟨?_, ?_, ?_, ?_⟩
  · intro h
    constructor
    · simp only [query_host_consensus_state_proof, h, Bool.not_true, Bool.false_eq_true,
        if_false]
    · intro f
      simp only [query_host_consensus_state_proof, h, Bool.not_true, Bool.false_eq_true,
        if_false]
  · intro h r hr hiff
    cases r with
    | none => exact absurd (hiff.mp rfl) (by simp [h])
    | some bs =>
      refine ⟨bs, rfl, ?_⟩
      simp only [query_host_consensus_state_proof, h, Bool.not_false, if_true, hr]
  · intro source a cid cr connEnd csr consr ph hp
      hcid h1 h2 h3 h4 h5 h6 h7 h8 h9 h10 h11
    exact ⟨_, handleOpenInitConnection_spec source sink a cid cr connEnd csr cs consr ph hp
      hcid h1 h2 h3 h4 h5 h6 h7 h8 h9 h10 h11, rfl⟩
  · intro source a cid ccid ver cr connEnd csr consr ph hp
      hcid h1 h2 h3 h4 h5 h6 h7 h8 hccid h9 h10 h11 hver
    exact ⟨_, handleOpenTryConnection_spec source sink a cid ccid ver cr connEnd csr cs
      consr ph hp hcid h1 h2 h3 h4 h5 h6 h7 h8 hccid h9 h10 h11 hver, rfl⟩

/-- C8 witness: the Tendermint sink attaches the empty proof whatever its
port would answer; the grandpa sink attaches the queried bytes, in both
connection builders. -/
theorem C8_witness :
    (query_host_consensus_state_proof sinkChain csA = .ok [] ∧
      ∀ f, query_host_consensus_state_proof
        { sinkChain with query_host_consensus_state_proof := f } csA = .ok []) ∧
    (∃ bs, (some [7, 7] : Option (List Nat)) = some bs ∧
      query_host_consensus_state_proof sinkGrandpa csA = .ok bs) ∧
    (∃ msg : MsgConnectionOpenTry,
      handleOpenInitConnection srcChain sinkGrandpa connEvA =
        .ok ([OutMsg.connOpenTry msg], []) ∧
      msg.host_consensus_state_proof = [7, 7]) ∧
    (∃ msg : MsgConnectionOpenAck,
      handleOpenTryConnection srcChainB sinkGrandpa connEvA =
        .ok ([OutMsg.connOpenAck msg], []) ∧
      msg.host_consensus_state_proof = [7, 7]) := by
  have t1 := C8_host_consensus_state_proof_policy sinkChain csA
  have t2 := C8_host_consensus_state_proof_policy sinkGrandpa csA
  refine ⟨t1.1 (by decide), ?_, ?_, ?_⟩
  · exact t2.2.1 (by decide) (some [7, 7]) rfl (by decide)
  · exact t2.2.2.1 srcChain connEvA "connection-0" connRespA connEndA csRespA
      consRespA proofHeightA [7, 7] rfl rfl rfl rfl rfl rfl rfl rfl (by rfl) rfl rfl rfl
  · exact t2.2.2.2 srcChainB connEvA "connection-0" "connection-1" "1" connRespB
      connEndB csRespA consRespA proofHeightA [7, 7]
      rfl rfl rfl rfl rfl rfl rfl rfl (by rfl) rfl rfl rfl rfl rfl

end Centauri
